import Mathlib

/-!
Verification of the pika messaging driver
(`oslo_messaging/_drivers/pika_driver/pika_poller.py`,
`oslo_messaging/_drivers/impl_pika.py`) against its natural-language
specification.  Stateful Python code is embedded as explicit state passing;
broker interaction is an explicit trace of events; machine time is modelled
by the rationals.  Parts of the repository that are referenced but whose
sources are not provided (the engine naming helpers, the exception class
hierarchy, the `retrying` library and the outgoing/incoming message classes)
are modelled from the specification and marked as such in doc comments.
-/

namespace PikaPoller

/-- A buffered incoming message.  `needAck` embeds `message.need_ack()`:
messages consumed from a queue in no-ack mode are constructed by
`_on_message_no_ack_callback` with no channel and do not need an ack;
messages from `_on_message_with_ack_callback` carry the channel and do. -/
structure Msg where
  mid : Nat
  needAck : Bool
deriving DecidableEq, Repr

/-- The mutable fields of `PikaPoller` that the claims concern.
`connection`/`channel` are `true` when the Python attribute is not `None`;
`queues_to_consume` is `none` for Python `None` and otherwise the
declared-queue dictionary as an association list queue name -> no_ack. -/
structure State where
  connection : Bool
  channel : Bool
  started : Bool
  queues_to_consume : Option (List (String × Bool))
  message_queue : List Msg
deriving DecidableEq, Repr

/-- Embeds the buffer-purging loop of `PikaPoller._cleanup`: the source walks
the indices from `len - 1` down to `0` and deletes every entry whose
`need_ack()` is true, which removes exactly the ack-requiring messages and
keeps the remaining ones in their original relative order; here the same
elementwise removal is written as structural recursion. -/
def delAckRequired : List Msg → List Msg
  | [] => []
  | m :: rest => if m.needAck then delAckRequired rest else m :: delAckRequired rest

/-- Embeds `PikaPoller._cleanup`: the channel and the connection are closed
and set to `None` (close errors are only logged) and the buffered messages
that require acknowledgement are deleted.  `_queues_to_consume` is not
touched. -/
def cleanup (s : State) : State :=
  { s with channel := false, connection := false,
           message_queue := delAckRequired s.message_queue }

/-- Embeds `PikaPoller._reconnect`: a fresh connection and channel are
created and `basic_qos` is applied; `_declare_queue_binding` runs only when
`_queues_to_consume` is `None` (its modelled result is the `declare`
argument); then every queue of the resulting set is consumed by
`_start_consuming`.  Returns the new state together with the list of
(queue, no_ack) pairs passed to `basic_consume`. -/
def reconnect (declare : List (String × Bool)) (s : State) :
    State × List (String × Bool) :=
  match s.queues_to_consume with
  | none =>
      ({ s with connection := true, channel := true,
                queues_to_consume := some declare }, declare)
  | some qs => ({ s with connection := true, channel := true }, qs)

/-- One broker interaction inside the `try` block of `PikaPoller.poll`:
either the (re)connection and the `process_data_events` slice succeed and the
consumer callbacks append `ms` to the buffer, or a connectivity error is
raised while connecting or pumping, or `basic_consume` fails (which first
resets `_queues_to_consume` to `None`). -/
inductive Event where
  | deliver (ms : List Msg)
  | connFail
  | consumeFail
deriving DecidableEq, Repr

/-- Result of a `poll` call: a normal return, a propagating connectivity
error, the `TypeError` that `poll` raises when called with a zero timeout
(`expiration_time` is `None` while the loop still computes
`expiration_time - time.time()`), or exhaustion of the modelled event
trace. -/
inductive Outcome where
  | polled (ms : List Msg) (s : State)
  | connectionError (s : State)
  | typeError (s : State)
  | fuelOut (s : State)
deriving DecidableEq, Repr

/-- Embeds the per-iteration reassignment
`if timeout is not None: timeout = expiration_time - time.time()`.
`tb` is whether the `timeout` argument was not `None`; `exp` is
`expiration_time`; `t` is the current `time.time()` reading.  The outer
`none` models the `TypeError` of `None - t`; otherwise the new value of the
`timeout` variable is returned. -/
def timeLeft (tb : Bool) (exp : Option ℚ) (t : ℚ) : Option (Option ℚ) :=
  match tb, exp with
  | false, _ => some none
  | true, none => none
  | true, some e => some (some (e - t))

/-- Embeds `(timeout is None) or timeout > 0` of the `poll` loop guard. -/
def condTime : Option ℚ → Bool
  | none => true
  | some τ => decide (0 < τ)

/-- Embeds the `while True` loop of `PikaPoller.poll` over an explicit trace
of loop iterations, each carrying the `time.time()` reading taken under the
lock and the broker interaction of that iteration.  `declare` is the
modelled result of `_declare_queue_binding` should a reconnect need it. -/
def pollLoop (declare : List (String × Bool)) (prefetch : Nat) (tb : Bool)
    (exp : Option ℚ) : State → List (ℚ × Event) → Outcome
  | s, [] => .fuelOut s
  | s, (t, ev) :: rest =>
    match timeLeft tb exp t with
    | none => .typeError s
    | some timeout =>
      if s.message_queue.length < prefetch ∧ s.started = true ∧
          condTime timeout = true then
        match ev with
        | .connFail => .connectionError (cleanup s)
        | .consumeFail =>
            .connectionError (cleanup { s with queues_to_consume := none })
        | .deliver ms =>
            let s1 := if s.channel then s else (reconnect declare s).1
            pollLoop declare prefetch tb exp
              { s1 with message_queue := s1.message_queue ++ ms } rest
      else
        .polled (s.message_queue.take prefetch)
          { s with message_queue := s.message_queue.drop prefetch }

/-- Embeds `PikaPoller.poll(timeout, prefetch_size)`:
`expiration_time = time.time() + timeout if timeout else None` evaluated at
entry time `t0` (zero is falsy in Python), followed by the polling loop. -/
def poll (timeout : Option ℚ) (t0 : ℚ) (declare : List (String × Bool))
    (prefetch : Nat) (s : State) (trace : List (ℚ × Event)) : Outcome :=
  let exp : Option ℚ :=
    match timeout with
    | some τ => if τ = 0 then none else some (t0 + τ)
    | none => none
  pollLoop declare prefetch timeout.isSome exp s trace

/-- Embeds `PikaPoller.stop`: under the lock, `_started` is set to `False`
(the early return when the poller is already stopped leaves the same
state). -/
def stop (s : State) : State := { s with started := false }

end PikaPoller

/-- An oslo.messaging `Target` as used by the pika driver: optional exchange,
required topic, optional per-server queue selector. -/
structure Target where
  exchange : Option String
  topic : String
  server : Option String
deriving DecidableEq, Repr

/-- The argument record of one call to
`pika_engine.declare_queue_binding_by_channel` (the channel itself carries no
information for these claims). -/
structure Declaration where
  exchange : String
  queue : String
  routing_key : String
  exchange_type : String
  durable : Bool
  queue_expiration : Option Nat
deriving DecidableEq, Repr

/-- Embeds Python's `a or b` on an optional string: `None` and the empty
string are falsy. -/
def pyOrStr (a : Option String) (b : String) : String :=
  match a with
  | none => b
  | some s => if s = "" then b else s

/-- The configuration and naming interface of `PikaEngine` used by the
pollers and the driver; `pika_engine.py` is not among the provided sources,
so the naming helpers are fields, instantiated from the specification for
concrete runs. -/
structure PikaEngineModel where
  rpc_queue_expiration : Nat
  default_notification_exchange : String
  notification_persistence : Bool
  get_rpc_exchange_name : Option String → String → Bool → Bool → String
  get_rpc_queue_name : String → Option String → Bool → String

/-- Modelled from the spec: RPC queue naming `<topic>[.<server>][.no_ack]`
(`pika_engine.get_rpc_queue_name` is not among the provided sources). -/
def spec_get_rpc_queue_name (topic : String) (server : Option String)
    (no_ack : Bool) : String :=
  topic ++ (match server with | some srv => "." ++ srv | none => "") ++
    (if no_ack then ".no_ack" else "")

/-- Modelled from the spec: RPC exchange naming — the base RPC exchange (the
target exchange or the configured default) plus a derived suffix
distinguishing the fanout and no-ack variants
(`pika_engine.get_rpc_exchange_name` is not among the provided sources). -/
def spec_get_rpc_exchange_name (exchange : Option String)
    (defaultEx topic : String) (fanout no_ack : Bool) : String :=
  pyOrStr exchange defaultEx ++ (if fanout then "_fanout_" ++ topic else "") ++
    (if no_ack then "_no_ack" else "")

/-- Embeds a Python `dict` assignment `d[k] = v` on an insertion-ordered
association list: an existing key keeps its position and gets the new value,
a new key is appended. -/
def dictInsert : List (String × Bool) → String → Bool → List (String × Bool)
  | [], k, v => [(k, v)]
  | (k1, v1) :: rest, k, v =>
      if k1 = k then (k1, v) :: rest else (k1, v1) :: dictInsert rest k v

/-- Embeds one iteration of the `for no_ack in [True, False]` loop of
`RpcServicePikaPoller._declare_queue_binding`: the queue and server queue are
recorded in `queues_to_consume` and three bindings are declared (topic queue
and server queue on the direct RPC exchange, server queue on the fanout
exchange). -/
def rpcDeclStep (eng : PikaEngineModel) (tg : Target) (no_ack : Bool)
    (acc : List Declaration × List (String × Bool)) :
    List Declaration × List (String × Bool) :=
  let exchange := eng.get_rpc_exchange_name tg.exchange tg.topic false no_ack
  let fanout_exchange :=
    eng.get_rpc_exchange_name tg.exchange tg.topic true no_ack
  let queue := eng.get_rpc_queue_name tg.topic none no_ack
  let server_queue := eng.get_rpc_queue_name tg.topic tg.server no_ack
  (acc.1 ++
    [⟨exchange, queue, queue, "direct", false, some eng.rpc_queue_expiration⟩,
     ⟨exchange, server_queue, server_queue, "direct", false,
       some eng.rpc_queue_expiration⟩,
     ⟨fanout_exchange, server_queue, "", "fanout", false,
       some eng.rpc_queue_expiration⟩],
   dictInsert (dictInsert acc.2 queue no_ack) server_queue no_ack)

/-- Embeds `RpcServicePikaPoller._declare_queue_binding`: the loop body runs
for `no_ack = True` and then `no_ack = False`; returns the declarations made
and the resulting `queues_to_consume` dictionary. -/
def rpc_declare_queue_binding (eng : PikaEngineModel) (tg : Target) :
    List Declaration × List (String × Bool) :=
  rpcDeclStep eng tg false (rpcDeclStep eng tg true ([], []))

/-- Embeds the loop body of `NotificationPikaPoller._declare_queue_binding`
for one `(target, priority)` pair, threading the accumulated declarations and
`queues_to_consume`. -/
def notifDeclAux (eng : PikaEngineModel) (queue_name : Option String) :
    List (Target × String) → List Declaration × List (String × Bool) →
    List Declaration × List (String × Bool)
  | [], acc => acc
  | (tg, pr) :: rest, acc =>
      let routing_key := tg.topic ++ "." ++ pr
      let queue := pyOrStr queue_name routing_key
      notifDeclAux eng queue_name rest
        (acc.1 ++
          [⟨pyOrStr tg.exchange eng.default_notification_exchange, queue,
            routing_key, "direct", eng.notification_persistence, none⟩],
         dictInsert acc.2 queue false)

/-- Embeds `NotificationPikaPoller._declare_queue_binding`: for each
`(target, priority)` a direct exchange/queue binding is declared with
routing key `topic.priority`, queue name `self._queue_name or routing_key`,
durability from `notification_persistence` and no queue expiration; each
declared queue is recorded for consumption with `no_ack = False`.
`queue_name` is the `pool` argument threaded through
`PikaDriver.listen_for_notifications`. -/
def notification_declare_queue_binding (eng : PikaEngineModel)
    (queue_name : Option String) (tps : List (Target × String)) :
    List Declaration × List (String × Bool) :=
  notifDeclAux eng queue_name tps ([], [])

/-- Modelled from the spec: the error taxonomy of §7 as flat kinds
(`pika_exceptions.py` and the `pika`/`pika_pool` class hierarchies are not
among the provided sources). -/
inductive PikaError where
  | connectionException
  | messageDeliveryFailure
  | exchangeNotFoundException
  | routingException
  | messageRejectedException
  | messagingTimeout
  | otherError
deriving DecidableEq, Repr

/-- Embeds the `on_exception` predicate built inside `PikaDriver.send`: an
exception is retried exactly when it is a `ConnectionException` or a
`MessageDeliveryFailure`. -/
def send_on_exception (ex : PikaError) : Bool :=
  match ex with
  | .connectionException => true
  | .messageDeliveryFailure => true
  | _ => false

/-- The retry policy object handed to the `retrying` library, keeping the
argument names of `retrying.retry`; `wait_fixed` is in milliseconds. -/
structure Retrier where
  stop_max_attempt_number : Option Nat
  wait_fixed : ℚ
  retry_on_exception : PikaError → Bool

/-- Embeds the retrier construction of `PikaDriver.send`: no retrier when
`retry == 0`; otherwise `stop_max_attempt_number` is unlimited for
`retry == -1` and `retry` otherwise, the wait between attempts is
`rpc_retry_delay * 1000` milliseconds and the predicate is
`send_on_exception`. -/
def buildSendRetrier (retry : Int) (rpc_retry_delay : ℚ) : Option Retrier :=
  if retry = 0 then none
  else some ⟨if retry = -1 then none else some retry.toNat,
             rpc_retry_delay * 1000, send_on_exception⟩

/-- Modelled from the spec: execution of a retrier (§7) — the `retrying`
library is not part of this repository.  `attempt k` is the outcome of the
`k`-th (0-based) attempt; an attempt failing with an error matched by `pred`
is retried while the attempt budget `stopMax` is not exhausted; any other
error (and exhaustion of the budget) re-raises.  `fuel` bounds the modelled
execution; the result carries the number of attempts made. -/
def retryExec (pred : PikaError → Bool) (stopMax : Option Nat)
    (attempt : Nat → Except PikaError Unit) :
    Nat → Nat → Option (Except PikaError Unit × Nat)
  | _, 0 => none
  | k, fuel + 1 =>
    match attempt k with
    | .ok a => some (.ok a, k + 1)
    | .error e =>
      if pred e &&
          (match stopMax with | none => true | some n => decide (k + 1 < n)) then
        retryExec pred stopMax attempt (k + 1) fuel
      else some (.error e, k + 1)

/-- Modelled from the spec: one attempt of the message send underneath
`PikaDriver.send` (§4.3, `pika_message.py` is not among the provided
sources) — when a deadline is set and the remaining budget at the attempt
time is not positive, the attempt fails with `MessagingTimeout` before
publishing; otherwise the broker outcome `oracle k` results.  Attempt `k`
happens at `start + k * w`, `w` being the fixed wait between attempts. -/
def rpcSendAttempt (deadline : Option ℚ) (oracle : Nat → Except PikaError Unit)
    (start w : ℚ) (k : Nat) : Except PikaError Unit :=
  let now := start + (k : ℚ) * w
  match deadline with
  | some dl => if dl - now ≤ 0 then .error .messagingTimeout else oracle k
  | none => oracle k

/-- Modelled from the spec: `PikaDriver.send` applies its retrier to the
publish attempt; with no retrier (`retry == 0`) the attempt runs exactly
once and its outcome — success or any exception — is the caller's outcome
(§4.3). -/
def pikaDriverSend (retry : Int) (rpc_retry_delay : ℚ)
    (attempt : Nat → Except PikaError Unit) (fuel : Nat) :
    Option (Except PikaError Unit × Nat) :=
  match buildSendRetrier retry rpc_retry_delay with
  | none => some (attempt 0, 1)
  | some r => retryExec r.retry_on_exception r.stop_max_attempt_number attempt 0 fuel

/-- The keyword arguments of the `msg.send(...)` call in
`PikaDriver.send_notification`. -/
structure PublishArgs where
  exchange : String
  routing_key : String
  confirm : Bool
  mandatory : Bool
  persistent : Bool
deriving DecidableEq, Repr

/-- Embeds the publish request issued by `PikaDriver.send_notification`:
exchange `target.exchange or default_notification_exchange`, routing key
`target.topic`, `confirm=True`, `mandatory=True`,
`persistent=notification_persistence`. -/
def send_notification_publish (eng : PikaEngineModel) (tg : Target) :
    PublishArgs :=
  ⟨pyOrStr tg.exchange eng.default_notification_exchange, tg.topic,
   true, true, eng.notification_persistence⟩

/-- Embeds the binding declared by
`PikaDriver._declare_notification_queue_binding`: queue and routing key are
`target.topic` on the notification exchange, durable per
`notification_persistence`, no expiration. -/
def declare_notification_queue_binding (eng : PikaEngineModel) (tg : Target) :
    Declaration :=
  ⟨pyOrStr tg.exchange eng.default_notification_exchange, tg.topic, tg.topic,
   "direct", eng.notification_persistence, none⟩

/-- Embeds the `on_exception` handler built inside
`PikaDriver.send_notification`.  `declOutcome` is the outcome of the
re-declaration `_declare_notification_queue_binding` would produce when
called.  For `ExchangeNotFoundException`/`RoutingException` the binding is
re-declared (a `ConnectionException` there is logged and swallowed, any
other declaration error propagates out of the handler) and the attempt is
retried; `ConnectionException`/`MessageRejectedException` are retried
without re-declaration; everything else is not retried.  Returns
`(retry?, declaration attempted)`. -/
def notification_on_exception (eng : PikaEngineModel) (tg : Target)
    (declOutcome : Except PikaError Unit) (ex : PikaError) :
    Except PikaError (Bool × Option Declaration) :=
  match ex with
  | .exchangeNotFoundException | .routingException =>
    (match declOutcome with
     | .ok _ => .ok (true, some (declare_notification_queue_binding eng tg))
     | .error .connectionException =>
         .ok (true, some (declare_notification_queue_binding eng tg))
     | .error e => .error e)
  | .connectionException | .messageRejectedException => .ok (true, none)
  | _ => .ok (false, none)

/-- Wire-body keys are modelled as character lists so that marker handling
is elementwise. -/
abbrev Key := List Char

/-- The reserved context-key marker of the wire body. -/
def ctxMarker : Key := ['_', '$', '_']

/-- Modelled from the spec: serialisation of (context, payload) into the
single JSON wire object — each context key is emitted with the reserved
marker concatenated in front, payload keys are emitted as-is
(`pika_message.PikaOutgoingMessage` is not among the provided sources). -/
def serializeBody {α : Type} (ctxt payload : List (Key × α)) :
    List (Key × α) :=
  ctxt.map (fun kv => (ctxMarker ++ kv.1, kv.2)) ++ payload

/-- Modelled from the spec: inbound parsing of the wire body — keys
beginning with the reserved marker are context keys (the marker is
stripped), all others are payload (`pika_message.PikaIncomingMessage` is not
among the provided sources). -/
def parseBody {α : Type} (body : List (Key × α)) :
    List (Key × α) × List (Key × α) :=
  (body.filterMap (fun kv =>
      if ctxMarker.isPrefixOf kv.1 then some (kv.1.drop ctxMarker.length, kv.2)
      else none),
   body.filter (fun kv => !(ctxMarker.isPrefixOf kv.1)))

/-- A concrete engine instance for evaluating the model: default
configuration values with the spec-modelled naming helpers. -/
def specEngine : PikaEngineModel :=
  { rpc_queue_expiration := 60
    default_notification_exchange := "openstack_notification"
    notification_persistence := false
    get_rpc_exchange_name := fun ex topic fanout no_ack =>
      spec_get_rpc_exchange_name ex "openstack_rpc" topic fanout no_ack
    get_rpc_queue_name := spec_get_rpc_queue_name }

/-! ## Helper lemmas -/

theorem delAckRequired_eq_filter (l : List PikaPoller.Msg) :
    PikaPoller.delAckRequired l = l.filter (fun m => !m.needAck) := by
  induction l with
  | nil => rfl
  | cons m rest ih =>
      by_cases h : m.needAck <;>
        simp [PikaPoller.delAckRequired, List.filter, h, ih]

theorem delAckRequired_length_le (l : List PikaPoller.Msg) :
    (PikaPoller.delAckRequired l).length ≤ l.length := by
  rw [delAckRequired_eq_filter]
  exact List.length_filter_le _ l

/-! ## C1 -/

/-- C1, counterexample to the claim as stated: a call `poll(timeout=0,
prefetch_size=1)` whose buffer already holds `prefetch_size` messages does
not return them — since `0` is falsy, `expiration_time` is `None` while the
loop still computes `expiration_time - time.time()`, so the call raises a
`TypeError` instead. -/
theorem poll_zero_timeout_type_error :
    PikaPoller.poll (some 0) 0 [] 1
        ⟨true, true, true, some [], [⟨1, false⟩]⟩
        [((0 : ℚ), PikaPoller.Event.deliver [])] =
      .typeError ⟨true, true, true, some [], [⟨1, false⟩]⟩ ∧
    PikaPoller.Outcome.typeError ⟨true, true, true, some [], [⟨1, false⟩]⟩ ≠
      .polled [⟨1, false⟩] ⟨true, true, true, some [], []⟩ :=
  ⟨rfl, by decide⟩

/-- Helper: with a `None` or non-zero timeout, a first loop iteration whose
guard is false (full buffer, not started, or deadline reached) returns the
buffered prefix immediately. -/
theorem poll_guard_false_returns
    (timeout : Option ℚ) (t0 t : ℚ) (declare : List (String × Bool))
    (prefetch : Nat) (s : PikaPoller.State) (ev : PikaPoller.Event)
    (rest : List (ℚ × PikaPoller.Event))
    (hτ : timeout ≠ some 0)
    (hcond : prefetch ≤ s.message_queue.length ∨ s.started = false ∨
      ∃ τ, timeout = some τ ∧ t0 + τ - t ≤ 0) :
    PikaPoller.poll timeout t0 declare prefetch s ((t, ev) :: rest) =
      .polled (s.message_queue.take prefetch)
        { s with message_queue := s.message_queue.drop prefetch } ∧
    (s.message_queue.take prefetch).length =
      min prefetch s.message_queue.length ∧
    s.message_queue.take prefetch ++ s.message_queue.drop prefetch =
      s.message_queue := by
  refine ⟨?_, List.length_take _ _, List.take_append_drop _ _⟩
  cases timeout with
  | none =>
      have hfalse : ¬ (s.message_queue.length < prefetch ∧ s.started = true ∧
          PikaPoller.condTime none = true) := by
        rcases hcond with h | h | ⟨τ, hτ2, _⟩
        · exact fun hc => by omega
        · exact fun hc => by rw [h] at hc; exact Bool.false_ne_true hc.2.1
        · exact absurd hτ2 (by simp)
      simp only [PikaPoller.poll, Option.isSome_none]
      simp [PikaPoller.pollLoop, PikaPoller.timeLeft, hfalse]
  | some τ =>
      have hτ0 : ¬ τ = 0 := fun h => hτ (by rw [h])
      have hfalse : ¬ (s.message_queue.length < prefetch ∧ s.started = true ∧
          PikaPoller.condTime (some (t0 + τ - t)) = true) := by
        rcases hcond with h | h | ⟨τ2, hτ2, hle⟩
        · exact fun hc => by omega
        · exact fun hc => by rw [h] at hc; exact Bool.false_ne_true hc.2.1
        · intro hc
          have hττ : τ = τ2 := by injection hτ2
          subst hττ
          have := hc.2.2
          simp only [PikaPoller.condTime, decide_eq_true_eq] at this
          linarith
      simp only [PikaPoller.poll, Option.isSome_some, hτ0, if_neg hτ0]
      simp [PikaPoller.pollLoop, PikaPoller.timeLeft, hfalse]

/-- C1 (amended: the timeout argument is `None` or non-zero; `poll(0, _)`
raises a `TypeError` instead): whenever the buffer already holds at least
`prefetch_size` messages, or the poller is not started, or the deadline has
been reached, `poll` immediately returns the first
`min(prefetch_size, len(buffer))` buffered messages in FIFO order and
removes exactly those from the buffer, leaving the rest in order. -/
theorem poll_returns_buffered_fifo
    (timeout : Option ℚ) (t0 t : ℚ) (declare : List (String × Bool))
    (prefetch : Nat) (s : PikaPoller.State) (ev : PikaPoller.Event)
    (rest : List (ℚ × PikaPoller.Event))
    (hτ : timeout ≠ some 0)
    (hcond : prefetch ≤ s.message_queue.length ∨ s.started = false ∨
      ∃ τ, timeout = some τ ∧ t0 + τ - t ≤ 0) :
    PikaPoller.poll timeout t0 declare prefetch s ((t, ev) :: rest) =
      .polled (s.message_queue.take prefetch)
        { s with message_queue := s.message_queue.drop prefetch } ∧
    (s.message_queue.take prefetch).length =
      min prefetch s.message_queue.length ∧
    s.message_queue.take prefetch ++ s.message_queue.drop prefetch =
      s.message_queue :=
  poll_guard_false_returns timeout t0 t declare prefetch s ev rest hτ hcond

/-- C1 witness: a stopped poller with three buffered messages returns the
first two of them. -/
theorem poll_returns_buffered_fifo_witness :
    PikaPoller.poll none 0 [] 2
        ⟨true, true, false, some [], [⟨1, true⟩, ⟨2, false⟩, ⟨3, true⟩]⟩
        [((0 : ℚ), PikaPoller.Event.deliver [])] =
      .polled [⟨1, true⟩, ⟨2, false⟩]
        ⟨true, true, false, some [], [⟨3, true⟩]⟩ := by
  have h := poll_returns_buffered_fifo none 0 0 [] 2
      ⟨true, true, false, some [], [⟨1, true⟩, ⟨2, false⟩, ⟨3, true⟩]⟩
      (PikaPoller.Event.deliver []) [] (by simp) (Or.inr (Or.inl rfl))
  exact h.1

/-! ## C2 -/

/-- C2: a connectivity error raised while `poll` is pumping broker I/O makes
the poller drop its channel and connection, delete from the buffer exactly
the messages that require acknowledgement (no-ack messages stay, in their
original relative order), and propagate the error out of `poll` (surfaced as
the connection-failure kind) so the caller can re-poll. -/
theorem poll_connectivity_error_cleanup
    (timeout : Option ℚ) (t0 t : ℚ) (declare : List (String × Bool))
    (prefetch : Nat) (s : PikaPoller.State)
    (rest : List (ℚ × PikaPoller.Event))
    (hτ : timeout ≠ some 0)
    (hdl : ∀ τ, timeout = some τ → 0 < t0 + τ - t)
    (hlen : s.message_queue.length < prefetch)
    (hst : s.started = true) :
    PikaPoller.poll timeout t0 declare prefetch s
        ((t, PikaPoller.Event.connFail) :: rest) =
      .connectionError (PikaPoller.cleanup s) ∧
    (PikaPoller.cleanup s).channel = false ∧
    (PikaPoller.cleanup s).connection = false ∧
    (PikaPoller.cleanup s).message_queue =
      s.message_queue.filter (fun m => !m.needAck) := by
  refine ⟨?_, rfl, rfl, delAckRequired_eq_filter _⟩
  cases timeout with
  | none =>
      have htrue : s.message_queue.length < prefetch ∧ s.started = true ∧
          PikaPoller.condTime none = true := ⟨hlen, hst, rfl⟩
      simp only [PikaPoller.poll, Option.isSome_none]
      simp [PikaPoller.pollLoop, PikaPoller.timeLeft, htrue]
  | some τ =>
      have hτ0 : ¬ τ = 0 := fun h => hτ (by rw [h])
      have htrue : s.message_queue.length < prefetch ∧ s.started = true ∧
          PikaPoller.condTime (some (t0 + τ - t)) = true := by
        refine ⟨hlen, hst, ?_⟩
        simp only [PikaPoller.condTime, decide_eq_true_eq]
        exact hdl τ rfl
      simp only [PikaPoller.poll, Option.isSome_some, hτ0, if_neg hτ0]
      simp [PikaPoller.pollLoop, PikaPoller.timeLeft, htrue]

/-- C2 witness: a running poller with an ack-requiring and a no-ack message
buffered hits a connectivity error; the ack-requiring message is dropped,
the no-ack one stays, and the error propagates. -/
theorem poll_connectivity_error_cleanup_witness :
    PikaPoller.poll none 0 [] 3
        ⟨true, true, true, some [("q", false)], [⟨1, true⟩, ⟨2, false⟩]⟩
        [((0 : ℚ), PikaPoller.Event.connFail)] =
      .connectionError
        (PikaPoller.cleanup
          ⟨true, true, true, some [("q", false)], [⟨1, true⟩, ⟨2, false⟩]⟩) ∧
    (PikaPoller.cleanup
        ⟨true, true, true, some [("q", false)], [⟨1, true⟩, ⟨2, false⟩]⟩).channel
      = false ∧
    (PikaPoller.cleanup
        ⟨true, true, true, some [("q", false)],
          [⟨1, true⟩, ⟨2, false⟩]⟩).connection = false ∧
    (PikaPoller.cleanup
        ⟨true, true, true, some [("q", false)],
          [⟨1, true⟩, ⟨2, false⟩]⟩).message_queue =
      List.filter (fun m => !m.needAck) [⟨1, true⟩, ⟨2, false⟩] :=
  poll_connectivity_error_cleanup none 0 0 [] 3
    ⟨true, true, true, some [("q", false)], [⟨1, true⟩, ⟨2, false⟩]⟩ []
    (by decide) (fun τ h => by cases h) (by decide) rfl

/-! ## C9 -/

/-- C9, counterexample to the claim as stated: after `stop()`, a call
`poll(timeout=0)` with an empty buffer does not return the empty list —
zero is falsy, so `expiration_time` is `None` while the loop still computes
`expiration_time - time.time()` and the call raises a `TypeError`. -/
theorem poll_after_stop_zero_timeout_type_error :
    PikaPoller.poll (some 0) 0 [] 1
        (PikaPoller.stop ⟨true, true, true, some [], []⟩)
        [((0 : ℚ), PikaPoller.Event.deliver [])] =
      .typeError ⟨true, true, false, some [], []⟩ ∧
    PikaPoller.Outcome.typeError ⟨true, true, false, some [], []⟩ ≠
      .polled [] ⟨true, true, false, some [], []⟩ :=
  ⟨rfl, by decide⟩

/-- C9 (amended: for every `None` or non-zero timeout argument; `poll(0, _)`
raises a `TypeError` instead): after `stop()` has returned, `poll` performs
no broker interaction and does not reconnect — whatever the event trace, it
immediately returns the next up-to-`prefetch_size` buffered messages with
only the buffer (and the already-cleared started flag) changed, and returns
the empty list (no `MessagingTimeout`) when the buffer is empty. -/
theorem poll_after_stop_returns_buffered
    (timeout : Option ℚ) (t0 t : ℚ) (declare : List (String × Bool))
    (prefetch : Nat) (s : PikaPoller.State) (ev : PikaPoller.Event)
    (rest : List (ℚ × PikaPoller.Event))
    (hτ : timeout ≠ some 0) :
    PikaPoller.poll timeout t0 declare prefetch (PikaPoller.stop s)
        ((t, ev) :: rest) =
      .polled (s.message_queue.take prefetch)
        { s with started := false,
                 message_queue := s.message_queue.drop prefetch } ∧
    (s.message_queue = [] →
      PikaPoller.poll timeout t0 declare prefetch (PikaPoller.stop s)
          ((t, ev) :: rest) =
        .polled [] { s with started := false, message_queue := [] }) := by
  have h := (poll_guard_false_returns timeout t0 t declare prefetch
      (PikaPoller.stop s) ev rest hτ (Or.inr (Or.inl rfl))).1
  refine ⟨h, fun h0 => ?_⟩
  rw [h]
  simp [PikaPoller.stop, h0]

/-- C9 witness: a stopped poller with an empty buffer polled with a numeric
timeout whose deadline is long past returns the empty list at once. -/
theorem poll_after_stop_returns_buffered_witness :
    PikaPoller.poll (some 5) 0 [] 1
        (PikaPoller.stop ⟨true, true, true, some [], []⟩)
        [((100 : ℚ), PikaPoller.Event.connFail)] =
      .polled [] ⟨true, true, false, some [], []⟩ := by
  have h := poll_after_stop_returns_buffered (some 5) 0 100 [] 1
      ⟨true, true, true, some [], []⟩ PikaPoller.Event.connFail [] (by decide)
  exact h.2 rfl

/-! ## C3 -/

/-- C3: a connection loss while `poll` is pumping propagates a connectivity
error and leaves the declared queue-set (`_queues_to_consume`, queue names
with their ack modes) untouched; the next `poll` call reconnects with a new
connection and channel, re-consumes exactly that stored queue-set (no fresh
declaration alters it), and resumes delivering messages. -/
theorem poll_reconnect_same_queue_set
    (declare : List (String × Bool)) (prefetch : Nat) (s : PikaPoller.State)
    (qs : List (String × Bool)) (t1 t2 t3 : ℚ) (ms : List PikaPoller.Msg)
    (ev3 : PikaPoller.Event) (rest : List (ℚ × PikaPoller.Event))
    (hq : s.queues_to_consume = some qs)
    (hst : s.started = true)
    (hch : s.channel = true)
    (hlen : s.message_queue.length < prefetch)
    (hlen2 : prefetch ≤
      (PikaPoller.delAckRequired s.message_queue ++ ms).length) :
    PikaPoller.poll none 0 declare prefetch s
        [(t1, PikaPoller.Event.connFail)] =
      .connectionError (PikaPoller.cleanup s) ∧
    (PikaPoller.cleanup s).queues_to_consume = some qs ∧
    (PikaPoller.reconnect declare (PikaPoller.cleanup s)).2 = qs ∧
    (PikaPoller.reconnect declare (PikaPoller.cleanup s)).1.channel = true ∧
    (PikaPoller.reconnect declare (PikaPoller.cleanup s)).1.connection
      = true ∧
    (PikaPoller.reconnect declare
        (PikaPoller.cleanup s)).1.queues_to_consume = some qs ∧
    PikaPoller.poll none 0 declare prefetch (PikaPoller.cleanup s)
        ((t2, PikaPoller.Event.deliver ms) :: (t3, ev3) :: rest) =
      .polled
        ((PikaPoller.delAckRequired s.message_queue ++ ms).take prefetch)
        { s with channel := true, connection := true,
                 message_queue :=
                   (PikaPoller.delAckRequired s.message_queue ++ ms).drop
                     prefetch } := by
  have htrue1 : s.message_queue.length < prefetch ∧ s.started = true ∧
      PikaPoller.condTime none = true := ⟨hlen, hst, rfl⟩
  have hlen1 : (PikaPoller.delAckRequired s.message_queue).length < prefetch :=
    lt_of_le_of_lt (delAckRequired_length_le _) hlen
  have hnot : ¬ ((PikaPoller.delAckRequired s.message_queue ++ ms).length <
      prefetch) := not_lt.mpr hlen2
  refine ⟨?_, hq, ?_, ?_, ?_, ?_, ?_⟩
  · simp only [PikaPoller.poll, Option.isSome_none]
    simp [PikaPoller.pollLoop, PikaPoller.timeLeft, htrue1]
  · simp [PikaPoller.reconnect, PikaPoller.cleanup, hq]
  · simp [PikaPoller.reconnect, PikaPoller.cleanup, hq]
  · simp [PikaPoller.reconnect, PikaPoller.cleanup, hq]
  · simp [PikaPoller.reconnect, PikaPoller.cleanup, hq]
  · simp only [PikaPoller.poll, Option.isSome_none]
    simp [PikaPoller.pollLoop, PikaPoller.timeLeft, PikaPoller.cleanup,
      PikaPoller.reconnect, hq, hst, hlen1, hnot, PikaPoller.condTime]
    intro hcontra
    rw [List.length_append] at hnot
    exact absurd hcontra hnot

/-- C3 witness: a running poller consuming `q` loses its connection; the
re-poll reconnects, re-consumes exactly `[("q", false)]` and delivers the
newly arrived messages. -/
theorem poll_reconnect_same_queue_set_witness :
    PikaPoller.poll none 0 [("d", true)] 2
        ⟨true, true, true, some [("q", false)], [⟨1, true⟩]⟩
        [((0 : ℚ), PikaPoller.Event.connFail)] =
      .connectionError
        (PikaPoller.cleanup
          ⟨true, true, true, some [("q", false)], [⟨1, true⟩]⟩) ∧
    (PikaPoller.cleanup
        ⟨true, true, true, some [("q", false)],
          [⟨1, true⟩]⟩).queues_to_consume = some [("q", false)] ∧
    (PikaPoller.reconnect [("d", true)]
        (PikaPoller.cleanup
          ⟨true, true, true, some [("q", false)], [⟨1, true⟩]⟩)).2 =
      [("q", false)] ∧
    (PikaPoller.reconnect [("d", true)]
        (PikaPoller.cleanup
          ⟨true, true, true, some [("q", false)], [⟨1, true⟩]⟩)).1.channel =
      true ∧
    (PikaPoller.reconnect [("d", true)]
        (PikaPoller.cleanup
          ⟨true, true, true, some [("q", false)],
            [⟨1, true⟩]⟩)).1.connection = true ∧
    (PikaPoller.reconnect [("d", true)]
        (PikaPoller.cleanup
          ⟨true, true, true, some [("q", false)],
            [⟨1, true⟩]⟩)).1.queues_to_consume = some [("q", false)] ∧
    PikaPoller.poll none 0 [("d", true)] 2
        (PikaPoller.cleanup
          ⟨true, true, true, some [("q", false)], [⟨1, true⟩]⟩)
        [((1 : ℚ), PikaPoller.Event.deliver [⟨2, false⟩, ⟨3, false⟩]),
         ((2 : ℚ), PikaPoller.Event.deliver [])] =
      .polled
        ((PikaPoller.delAckRequired [⟨1, true⟩] ++
            ([⟨2, false⟩, ⟨3, false⟩] : List PikaPoller.Msg)).take 2)
        ⟨true, true, true, some [("q", false)],
          (PikaPoller.delAckRequired [⟨1, true⟩] ++
            ([⟨2, false⟩, ⟨3, false⟩] : List PikaPoller.Msg)).drop 2⟩ :=
  poll_reconnect_same_queue_set [("d", true)] 2
    ⟨true, true, true, some [("q", false)], [⟨1, true⟩]⟩ [("q", false)]
    0 1 2 [⟨2, false⟩, ⟨3, false⟩] (PikaPoller.Event.deliver []) []
    rfl rfl rfl (by decide) (by decide)

/-! ## C4 -/

/-- C4: `RpcServicePikaPoller._declare_queue_binding` declares, for each
`no_ack` in {true, false}, the topic queue and the per-server queue bound to
the direct RPC exchange of that mode (routing keys equal to the queue names)
and the per-server queue bound to the fanout exchange of that mode (empty
routing key), all non-durable with the RPC queue expiration; and it returns
the mapping that sends, for each of the two modes, exactly the topic queue
and the per-server queue to that `no_ack` mode (queue names assumed pairwise
distinct). -/
theorem rpc_service_declare_queue_binding_spec
    (eng : PikaEngineModel) (tg : Target)
    (h : [eng.get_rpc_queue_name tg.topic none true,
          eng.get_rpc_queue_name tg.topic tg.server true,
          eng.get_rpc_queue_name tg.topic none false,
          eng.get_rpc_queue_name tg.topic tg.server false].Nodup) :
    (rpc_declare_queue_binding eng tg).1 =
      [⟨eng.get_rpc_exchange_name tg.exchange tg.topic false true,
        eng.get_rpc_queue_name tg.topic none true,
        eng.get_rpc_queue_name tg.topic none true, "direct", false,
        some eng.rpc_queue_expiration⟩,
       ⟨eng.get_rpc_exchange_name tg.exchange tg.topic false true,
        eng.get_rpc_queue_name tg.topic tg.server true,
        eng.get_rpc_queue_name tg.topic tg.server true, "direct", false,
        some eng.rpc_queue_expiration⟩,
       ⟨eng.get_rpc_exchange_name tg.exchange tg.topic true true,
        eng.get_rpc_queue_name tg.topic tg.server true, "", "fanout", false,
        some eng.rpc_queue_expiration⟩,
       ⟨eng.get_rpc_exchange_name tg.exchange tg.topic false false,
        eng.get_rpc_queue_name tg.topic none false,
        eng.get_rpc_queue_name tg.topic none false, "direct", false,
        some eng.rpc_queue_expiration⟩,
       ⟨eng.get_rpc_exchange_name tg.exchange tg.topic false false,
        eng.get_rpc_queue_name tg.topic tg.server false,
        eng.get_rpc_queue_name tg.topic tg.server false, "direct", false,
        some eng.rpc_queue_expiration⟩,
       ⟨eng.get_rpc_exchange_name tg.exchange tg.topic true false,
        eng.get_rpc_queue_name tg.topic tg.server false, "", "fanout", false,
        some eng.rpc_queue_expiration⟩] ∧
    (rpc_declare_queue_binding eng tg).2 =
      [(eng.get_rpc_queue_name tg.topic none true, true),
       (eng.get_rpc_queue_name tg.topic tg.server true, true),
       (eng.get_rpc_queue_name tg.topic none false, false),
       (eng.get_rpc_queue_name tg.topic tg.server false, false)] := by
  simp only [List.nodup_cons, List.mem_cons, List.mem_singleton,
    List.not_mem_nil, or_false, not_or, List.nodup_nil, and_true] at h
  obtain ⟨⟨h12, h13, h14⟩, ⟨h23, h24⟩, h34⟩ := h
  constructor
  · simp [rpc_declare_queue_binding, rpcDeclStep]
  · simp [rpc_declare_queue_binding, rpcDeclStep, dictInsert,
      h12, h13, h14, h23, h24, h34]

/-- C4 witness: for topic `t` and server `s` under the spec naming, the
returned consumption mapping is exactly the topic queue and server queue in
each ack mode. -/
theorem rpc_service_declare_queue_binding_spec_witness :
    (rpc_declare_queue_binding specEngine ⟨none, "t", some "s"⟩).2 =
      [("t.no_ack", true), ("t.s.no_ack", true), ("t", false),
       ("t.s", false)] := by
  have h := rpc_service_declare_queue_binding_spec specEngine
      ⟨none, "t", some "s"⟩ (by decide)
  rw [h.2]
  decide

/-! ## C5 -/

theorem dictInsert_mem (d : List (String × Bool)) (k : String) (v : Bool) :
    ∀ kv ∈ dictInsert d k v, kv ∈ d ∨ kv.2 = v := by
  induction d with
  | nil =>
      intro kv h
      simp only [dictInsert, List.mem_singleton] at h
      exact Or.inr (by rw [h])
  | cons hd tl ih =>
      intro kv h
      obtain ⟨k1, v1⟩ := hd
      by_cases hk : k1 = k
      · simp only [dictInsert, if_pos hk, List.mem_cons] at h
        rcases h with h | h
        · exact Or.inr (by rw [h])
        · exact Or.inl (List.mem_cons_of_mem _ h)
      · simp only [dictInsert, if_neg hk, List.mem_cons] at h
        rcases h with h | h
        · exact Or.inl (by rw [h]; exact List.mem_cons_self _ _)
        · rcases ih kv h with h2 | h2
          · exact Or.inl (List.mem_cons_of_mem _ h2)
          · exact Or.inr h2

theorem notifDeclAux_decls (eng : PikaEngineModel) (pool : Option String) :
    ∀ (tps : List (Target × String))
      (acc : List Declaration × List (String × Bool)),
      (notifDeclAux eng pool tps acc).1 =
        acc.1 ++ tps.map (fun tp =>
          ⟨pyOrStr tp.1.exchange eng.default_notification_exchange,
           pyOrStr pool (tp.1.topic ++ "." ++ tp.2),
           tp.1.topic ++ "." ++ tp.2, "direct",
           eng.notification_persistence, none⟩) := by
  intro tps
  induction tps with
  | nil => intro acc; simp [notifDeclAux]
  | cons tp rest ih =>
      intro acc
      obtain ⟨tg, pr⟩ := tp
      simp [notifDeclAux, ih]

theorem notifDeclAux_values (eng : PikaEngineModel) (pool : Option String) :
    ∀ (tps : List (Target × String))
      (acc : List Declaration × List (String × Bool)),
      (∀ kv ∈ acc.2, kv.2 = false) →
      ∀ kv ∈ (notifDeclAux eng pool tps acc).2, kv.2 = false := by
  intro tps
  induction tps with
  | nil => intro acc hacc; exact hacc
  | cons tp rest ih =>
      intro acc hacc
      obtain ⟨tg, pr⟩ := tp
      refine ih _ ?_
      intro kv hkv
      rcases dictInsert_mem _ _ _ kv hkv with h | h
      · exact hacc kv h
      · exact h

/-- C5, counterexample to the claim as stated: with the empty string as pool
argument the declared queue is not named by the pool override — the empty
string is falsy in `self._queue_name or routing_key`, so the default
`topic.priority` name is used instead. -/
theorem notification_pool_empty_string_override :
    ((notification_declare_queue_binding specEngine (some "")
        [(⟨none, "t", none⟩, "info")]).1.map Declaration.queue) =
      ["t.info"] ∧ ("t.info" : String) ≠ "" := by decide

/-- C5 (amended: a pool override takes effect when it is given and
non-empty; an empty pool string falls back to the default name): the
notification poller declares, for each `(target, priority)` pair in order, a
direct exchange — the target's exchange or the default notification
exchange — and a queue named by the pool override when given (and non-empty)
and `topic.priority` otherwise, with routing key `topic.priority`, durable
exactly when `notification_persistence` is set and without expiration; and
every queue recorded for consumption requires acknowledgement
(`no_ack = false`). -/
theorem notification_declare_queue_binding_spec
    (eng : PikaEngineModel) (tps : List (Target × String))
    (pool : Option String)
    (hpool : pool = none ∨ ∃ p, pool = some p ∧ p ≠ "") :
    (notification_declare_queue_binding eng pool tps).1 =
      tps.map (fun tp =>
        ⟨pyOrStr tp.1.exchange eng.default_notification_exchange,
         pool.getD (tp.1.topic ++ "." ++ tp.2),
         tp.1.topic ++ "." ++ tp.2, "direct",
         eng.notification_persistence, none⟩) ∧
    ∀ kv ∈ (notification_declare_queue_binding eng pool tps).2,
      kv.2 = false := by
  constructor
  · rw [notification_declare_queue_binding, notifDeclAux_decls]
    have hfun : (fun tp : Target × String =>
        (⟨pyOrStr tp.1.exchange eng.default_notification_exchange,
          pyOrStr pool (tp.1.topic ++ "." ++ tp.2),
          tp.1.topic ++ "." ++ tp.2, "direct",
          eng.notification_persistence, none⟩ : Declaration)) =
        (fun tp : Target × String =>
        (⟨pyOrStr tp.1.exchange eng.default_notification_exchange,
          pool.getD (tp.1.topic ++ "." ++ tp.2),
          tp.1.topic ++ "." ++ tp.2, "direct",
          eng.notification_persistence, none⟩ : Declaration)) := by
      funext tp
      rcases hpool with h | ⟨p, hp, hne⟩
      · rw [h]; rfl
      · rw [hp]
        simp [pyOrStr, Option.getD, hne]
    rw [hfun]
    simp
  · exact notifDeclAux_values eng pool tps ([], []) (by simp)

/-- C5 witness: two targets with a non-empty pool override `shared` — both
queues are named `shared`, routing keys are `topic.priority`, exchanges are
the target's or the default. -/
theorem notification_declare_queue_binding_spec_witness :
    (notification_declare_queue_binding specEngine (some "shared")
        [(⟨some "ex1", "t", none⟩, "info"), (⟨none, "u", none⟩, "err")]).1 =
      [⟨"ex1", "shared", "t.info", "direct", false, none⟩,
       ⟨"openstack_notification", "shared", "u.err", "direct", false,
        none⟩] := by
  have h := notification_declare_queue_binding_spec specEngine
      [(⟨some "ex1", "t", none⟩, "info"), (⟨none, "u", none⟩, "err")]
      (some "shared") (Or.inr ⟨"shared", rfl, by decide⟩)
  rw [h.1]
  decide

/-! ## C6 -/

theorem retryExec_until_deadline (oracle : Nat → Except PikaError Unit)
    (dl start w : ℚ)
    (hor : ∀ k, oracle k = Except.error PikaError.connectionException) :
    ∀ (fuel k : Nat), dl ≤ start + ((k + fuel : ℕ) : ℚ) * w →
      ∃ n : Nat,
        retryExec send_on_exception none
            (rpcSendAttempt (some dl) oracle start w) k (fuel + 1) =
          some (Except.error PikaError.messagingTimeout, n + 1) ∧
        dl ≤ start + (n : ℚ) * w ∧
        (∀ j : Nat, k ≤ j → j < n → start + (j : ℚ) * w < dl) ∧ k ≤ n := by
  intro fuel
  induction fuel with
  | zero =>
      intro k hk
      have hk2 : dl ≤ start + (k : ℚ) * w := by push_cast at hk; linarith
      have hnow : dl - (start + (k : ℚ) * w) ≤ 0 := by linarith
      refine ⟨k, ?_, hk2, fun j hj1 hj2 => absurd hj2 (by omega), le_refl k⟩
      simp [retryExec, rpcSendAttempt, hnow, send_on_exception]
  | succ fuel ih =>
      intro k hk
      by_cases hnow : dl - (start + (k : ℚ) * w) ≤ 0
      · refine ⟨k, ?_, by linarith,
          fun j hj1 hj2 => absurd hj2 (by omega), le_refl k⟩
        simp [retryExec, rpcSendAttempt, hnow, send_on_exception]
      · have hnow2 : ¬ dl - (start + (k : ℚ) * w) ≤ 0 := hnow
        push_neg at hnow
        have hstep : retryExec send_on_exception none
            (rpcSendAttempt (some dl) oracle start w) k (fuel + 1 + 1) =
            retryExec send_on_exception none
              (rpcSendAttempt (some dl) oracle start w) (k + 1) (fuel + 1) := by
          simp [retryExec, rpcSendAttempt, hnow2, hor k, send_on_exception]
        have hk2 : dl ≤ start + (((k + 1) + fuel : ℕ) : ℚ) * w := by
          push_cast at hk ⊢
          linarith [hk]
        obtain ⟨n, h1, h2, h3, h4⟩ := ih (k + 1) hk2
        refine ⟨n, by rw [hstep]; exact h1, h2, ?_, by omega⟩
        intro j hj1 hj2
        rcases eq_or_lt_of_le hj1 with rfl | hlt
        · linarith
        · exact h3 j hlt hj2

/-- C6: in `PikaDriver.send`, the retry predicate accepts exactly
`ConnectionException` and `MessageDeliveryFailure` (every other exception
stops the retrier at once and propagates), the wait between attempts is
fixed at `rpc_retry_delay` (seconds, i.e. `rpc_retry_delay * 1000` ms for
the retrying library), and `retry = -1` builds an attempt-unbounded retrier
which — since each attempt of the underlying send fails with the
non-retried `MessagingTimeout` once the deadline has passed — keeps
retrying exactly until the call deadline and then surfaces
`MessagingTimeout`. -/
theorem rpc_send_retry_policy :
    (∀ e, send_on_exception e = true ↔
      (e = PikaError.connectionException ∨
       e = PikaError.messageDeliveryFailure)) ∧
    (∀ (retry : Int) (delay : ℚ) (r : Retrier),
      buildSendRetrier retry delay = some r →
      r.wait_fixed = delay * 1000 ∧
      r.retry_on_exception = send_on_exception) ∧
    (∀ delay : ℚ, buildSendRetrier (-1) delay =
      some ⟨none, delay * 1000, send_on_exception⟩) ∧
    (∀ (stopMax : Option Nat) (attempt : Nat → Except PikaError Unit)
       (e : PikaError) (k fuel : Nat),
      attempt k = Except.error e → send_on_exception e = false →
      retryExec send_on_exception stopMax attempt k (fuel + 1) =
        some (Except.error e, k + 1)) ∧
    (∀ (delay dl start : ℚ) (oracle : Nat → Except PikaError Unit)
       (fuel : Nat),
      dl ≤ start + (fuel : ℚ) * (delay * 1000) →
      (∀ k, oracle k = Except.error PikaError.connectionException) →
      ∃ n : Nat,
        retryExec send_on_exception none
            (rpcSendAttempt (some dl) oracle start (delay * 1000)) 0
            (fuel + 1) =
          some (Except.error PikaError.messagingTimeout, n + 1) ∧
        dl ≤ start + (n : ℚ) * (delay * 1000) ∧
        ∀ j : Nat, j < n → start + (j : ℚ) * (delay * 1000) < dl) := by
  refine ⟨?_, ?_, ?_, ?_, ?_⟩
  · intro e; cases e <;> simp [send_on_exception]
  · intro retry delay r h
    by_cases h0 : retry = 0
    · simp [buildSendRetrier, h0] at h
    · simp only [buildSendRetrier, if_neg h0, Option.some.injEq] at h
      rw [← h]
      exact ⟨rfl, rfl⟩
  · intro delay
    rfl
  · intro stopMax attempt e k fuel h1 h2
    simp [retryExec, h1, h2]
  · intro delay dl start oracle fuel hdl hor
    obtain ⟨n, h1, h2, h3, _⟩ :=
      retryExec_until_deadline oracle dl start (delay * 1000) hor fuel 0
        (by push_cast; linarith)
    exact ⟨n, h1, h2, fun j hj => h3 j (Nat.zero_le j) hj⟩

/-- C6 witness: the predicate at two concrete errors, the retrier built for
`retry = -1` with a one-second delay, and a non-retryable error stopping a
bounded retrier after one attempt. -/
theorem rpc_send_retry_policy_witness :
    send_on_exception PikaError.connectionException = true ∧
    send_on_exception PikaError.routingException = false ∧
    buildSendRetrier (-1) 1 =
      some ⟨none, (1 : ℚ) * 1000, send_on_exception⟩ ∧
    retryExec send_on_exception (some 3)
        (fun _ => Except.error PikaError.otherError) 0 5 =
      some (Except.error PikaError.otherError, 1) := by
  obtain ⟨h1, h2, h3, h4, h5⟩ := rpc_send_retry_policy
  refine ⟨(h1 _).mpr (Or.inl rfl), ?_, h3 1,
    h4 (some 3) _ PikaError.otherError 0 4 rfl rfl⟩
  cases hb : send_on_exception PikaError.routingException with
  | false => rfl
  | true => exact absurd ((h1 _).mp hb) (by decide)

/-! ## C7 -/

/-- C7: `PikaDriver.send_notification` publishes to the target's exchange
(or, when the target has none, the default notification exchange) with
routing key `target.topic`, `confirm=true`, `mandatory=true` and
`persistent = notification_persistence`; and when an attempt fails with
`ExchangeNotFoundException` or `RoutingException` its exception handler
re-declares the notification queue binding before reporting the attempt as
retryable — also when that re-declaration itself fails with a
`ConnectionException`, which is only logged. -/
theorem send_notification_publish_and_redeclare :
    (∀ (eng : PikaEngineModel) (tg : Target),
      (send_notification_publish eng tg).confirm = true ∧
      (send_notification_publish eng tg).mandatory = true ∧
      (send_notification_publish eng tg).persistent =
        eng.notification_persistence ∧
      (send_notification_publish eng tg).routing_key = tg.topic) ∧
    (∀ (eng : PikaEngineModel) (tg : Target), tg.exchange = none →
      (send_notification_publish eng tg).exchange =
        eng.default_notification_exchange) ∧
    (∀ (eng : PikaEngineModel) (tg : Target) (e : String),
      tg.exchange = some e → e ≠ "" →
      (send_notification_publish eng tg).exchange = e) ∧
    (∀ (eng : PikaEngineModel) (tg : Target)
       (declOut : Except PikaError Unit) (ex : PikaError),
      (ex = PikaError.exchangeNotFoundException ∨
       ex = PikaError.routingException) →
      (declOut = Except.ok () ∨
       declOut = Except.error PikaError.connectionException) →
      notification_on_exception eng tg declOut ex =
        Except.ok (true,
          some (declare_notification_queue_binding eng tg))) := by
  refine ⟨fun eng tg => ⟨rfl, rfl, rfl, rfl⟩, ?_, ?_, ?_⟩
  · intro eng tg h
    simp [send_notification_publish, pyOrStr, h]
  · intro eng tg e h hne
    simp [send_notification_publish, pyOrStr, h, hne]
  · intro eng tg declOut ex hex hdecl
    rcases hex with rfl | rfl <;> rcases hdecl with rfl | rfl <;> rfl

/-- C7 witness: a target with no exchange publishes to the default
notification exchange; an `ExchangeNotFoundException` whose re-declaration
fails with a `ConnectionException` is still retried after the declaration
attempt. -/
theorem send_notification_publish_and_redeclare_witness :
    (send_notification_publish specEngine ⟨none, "t", none⟩).confirm = true ∧
    (send_notification_publish specEngine ⟨none, "t", none⟩).exchange =
      "openstack_notification" ∧
    notification_on_exception specEngine ⟨none, "t", none⟩
        (Except.error PikaError.connectionException)
        PikaError.exchangeNotFoundException =
      Except.ok (true,
        some (declare_notification_queue_binding specEngine
          ⟨none, "t", none⟩)) := by
  obtain ⟨h1, h2, h3, h4⟩ := send_notification_publish_and_redeclare
  exact ⟨(h1 specEngine _).1, h2 specEngine _ rfl,
    h4 specEngine _ _ _ (Or.inl rfl) (Or.inr rfl)⟩

/-! ## C10 -/

/-- C10: when `PikaDriver.send` is called with `retry = 0`, no retrier is
constructed and the message send runs exactly one attempt; any failure of
that attempt — including `ConnectionException` and
`MessageDeliveryFailure` — propagates to the caller without any retry or
delay. -/
theorem send_retry_zero_single_attempt :
    (∀ delay : ℚ, buildSendRetrier 0 delay = none) ∧
    (∀ (delay : ℚ) (attempt : Nat → Except PikaError Unit) (fuel : Nat),
      pikaDriverSend 0 delay attempt fuel = some (attempt 0, 1)) ∧
    (∀ (delay : ℚ) (attempt : Nat → Except PikaError Unit) (fuel : Nat)
       (e : PikaError), attempt 0 = Except.error e →
      pikaDriverSend 0 delay attempt fuel = some (Except.error e, 1)) := by
  refine ⟨fun delay => rfl, fun delay attempt fuel => rfl, ?_⟩
  intro delay attempt fuel e h
  simp [pikaDriverSend, buildSendRetrier, h]

/-- C10 witness: a single attempt failing with `ConnectionException` under
`retry = 0` propagates after exactly one attempt. -/
theorem send_retry_zero_single_attempt_witness :
    pikaDriverSend 0 1
        (fun _ => Except.error PikaError.connectionException) 7 =
      some (Except.error PikaError.connectionException, 1) :=
  send_retry_zero_single_attempt.2.2 1 _ 7 PikaError.connectionException rfl

/-! ## C8 -/

theorem isPrefixOf_append_self (l t : List Char) :
    l.isPrefixOf (l ++ t) = true := by
  induction l with
  | nil => simp [List.isPrefixOf]
  | cons c rest ih => simp [List.isPrefixOf, ih]

theorem parse_of_serialized_ctx {α : Type} (ctxt : List (Key × α)) :
    (ctxt.map (fun kv => (ctxMarker ++ kv.1, kv.2))).filterMap
        (fun kv => if ctxMarker.isPrefixOf kv.1 then
          some (kv.1.drop ctxMarker.length, kv.2) else none) = ctxt := by
  induction ctxt with
  | nil => rfl
  | cons kv rest ih =>
      rw [List.map_cons, List.filterMap_cons, if_pos (isPrefixOf_append_self _ _),
        List.drop_left, ih]

theorem parse_of_payload_no_ctx {α : Type} (payload : List (Key × α))
    (hp : ∀ kv ∈ payload, ctxMarker.isPrefixOf kv.1 = false) :
    payload.filterMap (fun kv => if ctxMarker.isPrefixOf kv.1 then
      some (kv.1.drop ctxMarker.length, kv.2) else none) = [] := by
  induction payload with
  | nil => rfl
  | cons kv rest ih =>
      have h1 := hp kv (List.mem_cons_self _ _)
      rw [List.filterMap_cons, if_neg (by rw [h1]; exact Bool.false_ne_true),
        ih (fun x hx => hp x (List.mem_cons_of_mem _ hx))]

theorem filter_of_serialized_ctx {α : Type} (ctxt : List (Key × α)) :
    (ctxt.map (fun kv => (ctxMarker ++ kv.1, kv.2))).filter
      (fun kv => !(ctxMarker.isPrefixOf kv.1)) = [] := by
  induction ctxt with
  | nil => rfl
  | cons kv rest ih =>
      rw [List.map_cons, List.filter_cons]
      simp [isPrefixOf_append_self, ih]

/-- C8, counterexample to the claim as stated: a payload key that itself
begins with the reserved marker (the context is empty, so the claim's
hypothesis on context keys holds) is misclassified as a context key on
parsing, so the serialised body does not parse back to the original
(context, payload) partition. -/
theorem body_roundtrip_marker_payload_counterexample :
    parseBody (serializeBody ([] : List (Key × Nat))
        [(['_', '$', '_', 'a'], 0)]) ≠
      (([] : List (Key × Nat)), [(['_', '$', '_', 'a'], (0 : Nat))]) := by
  decide

/-- C8 (amended: additionally, no payload key begins with the reserved
marker — a marker-prefixed payload key is parsed back as a context key):
serialising a context whose keys do not contain the marker together with
such a payload yields a single object whose context keys carry the `_$_`
marker and whose payload keys are unprefixed, with pairwise-distinct keys
(no collisions), and parsing that body yields exactly the original
(context, payload) partition. -/
theorem body_roundtrip {α : Type} (ctxt payload : List (Key × α))
    (hc : ∀ kv ∈ ctxt, ¬ ctxMarker <:+: kv.1)
    (hp : ∀ kv ∈ payload, ctxMarker.isPrefixOf kv.1 = false)
    (hcn : (ctxt.map Prod.fst).Nodup)
    (hpn : (payload.map Prod.fst).Nodup) :
    parseBody (serializeBody ctxt payload) = (ctxt, payload) ∧
    ((serializeBody ctxt payload).map Prod.fst).Nodup := by
  constructor
  · unfold parseBody serializeBody
    refine Prod.ext ?_ ?_
    · simp only [List.filterMap_append]
      rw [parse_of_serialized_ctx, parse_of_payload_no_ctx payload hp]
      simp
    · simp only [List.filter_append]
      rw [filter_of_serialized_ctx]
      simp only [List.nil_append]
      exact List.filter_eq_self.mpr (fun kv hkv => by rw [hp kv hkv]; rfl)
  · unfold serializeBody
    have hkeys : ((ctxt.map (fun kv => (ctxMarker ++ kv.1, kv.2)) ++
        payload).map Prod.fst) =
        (ctxt.map Prod.fst).map (fun k => ctxMarker ++ k) ++
          payload.map Prod.fst := by
      simp [List.map_append, List.map_map, Function.comp]
    rw [hkeys, List.nodup_append]
    refine ⟨List.Nodup.map ?_ hcn, hpn, ?_⟩
    · intro a b hab
      have h2 := congrArg (List.drop ctxMarker.length) hab
      simpa [List.drop_left] using h2
    · intro a ha hb
      rw [List.mem_map] at ha hb
      obtain ⟨k1, _, hk1⟩ := ha
      obtain ⟨kv2, hkv2mem, hkv2⟩ := hb
      have htrue : ctxMarker.isPrefixOf a = true := by
        rw [← hk1]
        exact isPrefixOf_append_self _ _
      have hfalse : ctxMarker.isPrefixOf a = false := by
        rw [← hkv2]
        exact hp kv2 hkv2mem
      rw [htrue] at hfalse
      exact Bool.noConfusion hfalse

/-- C8 witness: one context key `a` and one payload key `b` round-trip and
the serialised keys are collision-free. -/
theorem body_roundtrip_witness :
    parseBody (serializeBody [((['a'] : Key), (1 : Nat))] [(['b'], 2)]) =
      ([((['a'] : Key), (1 : Nat))], [(['b'], 2)]) ∧
    ((serializeBody [((['a'] : Key), (1 : Nat))] [(['b'], 2)]).map
        Prod.fst).Nodup :=
  body_roundtrip [(['a'], 1)] [(['b'], 2)] (by decide) (by decide)
    (by decide) (by decide)
